import Mathlib

/-!
# AudioDetectorPro — verification of the normalization + VAD segmentation core

Shallow embedding of the core of `AudioDetectorPro` (Python):

* `src/core/vad_analyzer.py` — `VADAnalyzer` (the spec's `SegmentClassifier`):
  frame loop, segment state machine, duration statistics;
* `src/core/models.py` — `AnalysisResult` with derived percentages;
* `src/core/audio_loader.py` — `AudioLoader` (the spec's `FormatNegotiator`):
  `_ensure_wav_format` (normalize), `get_duration`, and the progress-emission
  loop of `_convert_to_wav`.

Python floats are modelled as exact rationals (`ℚ`); all the constants the
code manipulates (frame times `i * frame_duration/1000`, durations
`n_frames / sample_rate`, percentages) are exactly representable, so the
rational model is the (idealized-real) semantics everyone, spec included,
reasons in.  External effects are explicit parameters: the filesystem is a
map `String → Option WavFile`, the `webrtcvad` per-frame decision is an
oracle `Nat → VadOutcome` (with a `fault` constructor for the internal
exception the code catches), and the transcoder's stderr stream is the list
of per-line regex-match results.
-/

namespace AudioDetectorPro

/-- Header data of a PCM WAV container as read by Python's `wave` module:
`getnchannels`, `getsampwidth`, `getframerate`, `getnframes`. -/
structure WavFile where
  channels : Nat
  sampleWidth : Nat
  sampleRate : Nat
  nFrames : Nat
deriving DecidableEq

/-- `VADAnalyzer.SUPPORTED_SAMPLE_RATES` from `vad_analyzer.py`. -/
def SUPPORTED_SAMPLE_RATES : List Nat := [8000, 16000, 32000, 48000]

/-- `VADAnalyzer.SUPPORTED_FRAME_DURATIONS` from `vad_analyzer.py` (ms). -/
def SUPPORTED_FRAME_DURATIONS : List Int := [10, 20, 30]

/-- The analyzer object: the two fields set by `VADAnalyzer.__init__`. -/
structure VADAnalyzer where
  sensitivity : Nat
  frame_duration : Nat
deriving DecidableEq

/-- `VADAnalyzer.__init__(sensitivity, frame_duration)`:
`self.sensitivity = max(0, min(3, sensitivity))`;
`self.frame_duration = frame_duration if frame_duration in SUPPORTED_FRAME_DURATIONS else 30`.
Python ints may be negative, so the constructor takes `Int` arguments; the
clamped results are non-negative and are stored as `Nat`. -/
def VADAnalyzer.mk' (sensitivity : Int) (frame_duration : Int) : VADAnalyzer :=
  { sensitivity := (max 0 (min 3 sensitivity)).toNat
    frame_duration :=
      if frame_duration ∈ SUPPORTED_FRAME_DURATIONS then frame_duration.toNat else 30 }

/-- Result of the external `webrtcvad.Vad.is_speech` call on one frame:
a boolean decision, or an exception (`fault`) caught by the analyzer. -/
inductive VadOutcome where
  | speech
  | nonspeech
  | fault
deriving DecidableEq

/-- The error taxonomy of `VADAnalyzer.analyze` (the spec's names; the code
raises `FileNotFoundError` and `ValueError` with matching messages). -/
inductive AnalyzeError where
  | fileNotFound
  | unsupportedChannelLayout
  | unsupportedSampleWidth
  | unsupportedSampleRate
deriving DecidableEq

/-- `os.path.basename` restricted to `/`-separated paths. -/
def basename (p : String) : String :=
  (p.splitOn "/").getLast!

/-- The `AnalysisResult` dataclass of `models.py` (floats as `ℚ`). -/
structure AnalysisResult where
  file_path : String
  file_name : String
  total_duration : ℚ
  speech_duration : ℚ
  silence_duration : ℚ
  sample_rate : Nat
  sensitivity : Nat
  frame_duration : Nat
  speech_segments : List (ℚ × ℚ)
deriving DecidableEq

/-- `AnalysisResult.speech_percentage` from `models.py`:
`0.0` when `total_duration <= 0`, else `speech_duration / total_duration * 100`. -/
def AnalysisResult.speech_percentage (r : AnalysisResult) : ℚ :=
  if r.total_duration ≤ 0 then 0 else r.speech_duration / r.total_duration * 100

/-- `AnalysisResult.silence_percentage` from `models.py`: `100.0 - speech_percentage`. -/
def AnalysisResult.silence_percentage (r : AnalysisResult) : ℚ :=
  100 - r.speech_percentage

/-- The mutable locals of the frame loop in `VADAnalyzer.analyze`. -/
structure LoopState where
  speech_frames : Nat
  speech_segments : List (ℚ × ℚ)
  is_speech_active : Bool
  segment_start : ℚ
deriving DecidableEq

/-- Loop locals before the first iteration:
`speech_frames = 0`, `speech_segments = []`, `is_speech_active = False`,
`segment_start = 0.0`. -/
def initState : LoopState :=
  { speech_frames := 0, speech_segments := [], is_speech_active := false, segment_start := 0 }

/-- One iteration of the frame loop of `VADAnalyzer.analyze` for frame `i`,
given the outcome of `vad.is_speech` on that (possibly zero-padded) frame.
The `fault` arm is the `except Exception` handler: the frame is treated as
silence and any open segment is closed at `i * frame_duration_sec`. -/
def stepFrame (frame_duration_sec : ℚ) (i : Nat) (o : VadOutcome) (st : LoopState) :
    LoopState :=
  match o with
  | .speech =>
    if st.is_speech_active then
      { st with speech_frames := st.speech_frames + 1 }
    else
      { st with
          speech_frames := st.speech_frames + 1
          is_speech_active := true
          segment_start := (i : ℚ) * frame_duration_sec }
  | .nonspeech =>
    if st.is_speech_active then
      { st with
          is_speech_active := false
          speech_segments :=
            st.speech_segments ++ [(st.segment_start, (i : ℚ) * frame_duration_sec)] }
    else st
  | .fault =>
    if st.is_speech_active then
      { st with
          is_speech_active := false
          speech_segments :=
            st.speech_segments ++ [(st.segment_start, (i : ℚ) * frame_duration_sec)] }
    else st

/-- The frame loop `for i in range(num_frames)` of `VADAnalyzer.analyze`,
run for the first `n` frames. -/
def runFrames (frame_duration_sec : ℚ) (vad : Nat → VadOutcome) : Nat → LoopState
  | 0 => initState
  | n + 1 => stepFrame frame_duration_sec n (vad n) (runFrames frame_duration_sec vad n)

/-- `frame_size = int(sample_rate * self.frame_duration / 1000)`:
Python truncating division, `Nat` division here. -/
def frameSize (sampleRate frame_duration : Nat) : Nat :=
  sampleRate * frame_duration / 1000

/-- `num_frames = math.ceil(n_frames / frame_size)` as ceiling division. -/
def numFrames (nFrames frame_size : Nat) : Nat :=
  (nFrames + frame_size - 1) / frame_size

/-- The success branch of `VADAnalyzer.analyze`: the frame loop, the closing
of a still-open segment at `num_frames * frame_duration_sec`, and the
duration statistics, assembled into the returned `AnalysisResult`. -/
def analyzeResult (a : VADAnalyzer) (audio : WavFile) (vad : Nat → VadOutcome)
    (file_path : String) : AnalysisResult :=
  let frame_size := frameSize audio.sampleRate a.frame_duration
  let num_frames := numFrames audio.nFrames frame_size
  let frame_duration_sec : ℚ := (a.frame_duration : ℚ) / 1000
  let final := runFrames frame_duration_sec vad num_frames
  let speech_segments :=
    if final.is_speech_active then
      final.speech_segments ++
        [(final.segment_start, (num_frames : ℚ) * frame_duration_sec)]
    else final.speech_segments
  let total_duration : ℚ := (audio.nFrames : ℚ) / (audio.sampleRate : ℚ)
  let speech_duration : ℚ := (final.speech_frames : ℚ) * frame_duration_sec
  let silence_duration : ℚ := max 0 (total_duration - speech_duration)
  { file_path := file_path
    file_name := basename file_path
    total_duration := total_duration
    speech_duration := speech_duration
    silence_duration := silence_duration
    sample_rate := audio.sampleRate
    sensitivity := a.sensitivity
    frame_duration := a.frame_duration
    speech_segments := speech_segments }

/-- `VADAnalyzer.analyze(file_path)` from `vad_analyzer.py`.

`fs` is the filesystem: `none` models `os.path.exists` failing (the code
raises before opening the file), `some audio` the header `wave.open` reads.
`vad` is the external `webrtcvad` classifier, indexed by frame number (the
code feeds it the `frame_size`-sample chunk starting at `i * frame_size`,
zero-padded at the end of the stream; the bytes themselves only flow into
this external call, so the oracle is indexed by `i`).

`frame_size = int(sample_rate * frame_duration / 1000)` is `Nat` division
(exact for every supported rate/duration pair) and
`num_frames = math.ceil(n_frames / frame_size)` is ceiling division. -/
def VADAnalyzer.analyze (a : VADAnalyzer) (fs : String → Option WavFile)
    (vad : Nat → VadOutcome) (file_path : String) :
    Except AnalyzeError AnalysisResult :=
  match fs file_path with
  | none => .error .fileNotFound
  | some audio =>
    if audio.channels ≠ 1 then .error .unsupportedChannelLayout
    else if audio.sampleWidth ≠ 2 then .error .unsupportedSampleWidth
    else if audio.sampleRate ∉ SUPPORTED_SAMPLE_RATES then .error .unsupportedSampleRate
    else .ok (analyzeResult a audio vad file_path)

/-!
## AudioLoader (`audio_loader.py`)
-/

/-- A pydub `AudioSegment` as `_ensure_wav_format` observes and transforms it:
the three format attributes the code inspects. -/
structure AudioSegment where
  channels : Nat
  sample_width : Nat
  frame_rate : Nat
deriving DecidableEq

/-- pydub `AudioSegment.set_channels`. -/
def AudioSegment.set_channels (a : AudioSegment) (c : Nat) : AudioSegment :=
  { a with channels := c }

/-- pydub `AudioSegment.set_sample_width`. -/
def AudioSegment.set_sample_width (a : AudioSegment) (w : Nat) : AudioSegment :=
  { a with sample_width := w }

/-- pydub `AudioSegment.set_frame_rate`. -/
def AudioSegment.set_frame_rate (a : AudioSegment) (r : Nat) : AudioSegment :=
  { a with frame_rate := r }

/-- The spec's `CanonicalFormat` contract: exactly 1 channel, 2-byte samples,
rate in {8000, 16000, 32000, 48000}. -/
def AudioSegment.isCanonical (a : AudioSegment) : Prop :=
  a.channels = 1 ∧ a.sample_width = 2 ∧ a.frame_rate ∈ SUPPORTED_SAMPLE_RATES

instance (a : AudioSegment) : Decidable a.isCanonical := by
  unfold AudioSegment.isCanonical; infer_instance

/-- What `_ensure_wav_format` returns: the path handed back to the caller and,
when a conversion happened, the audio exported to the fresh temp path
(`none` when the original path is returned and nothing is written). -/
structure EnsureOutcome where
  path : String
  exported : Option AudioSegment
deriving DecidableEq

/-- `AudioLoader._ensure_wav_format(file_path)` from `audio_loader.py`,
operating on the `AudioSegment` that `AudioSegment.from_wav(file_path)`
produced; `temp_path` is the fresh name `tempfile.mktemp` would mint.
Mirrors the three sequential checks, the `needs_conversion` flag, and the
final export-or-return-original decision. -/
def ensure_wav_format (audio : AudioSegment) (file_path temp_path : String) :
    EnsureOutcome :=
  let needs1 := decide (audio.channels ≠ 1)
  let audio1 := if audio.channels ≠ 1 then audio.set_channels 1 else audio
  let needs2 := needs1 || decide (audio1.sample_width ≠ 2)
  let audio2 := if audio1.sample_width ≠ 2 then audio1.set_sample_width 2 else audio1
  let needs3 := needs2 || decide (audio2.frame_rate ∉ SUPPORTED_SAMPLE_RATES)
  let audio3 :=
    if audio2.frame_rate ∉ SUPPORTED_SAMPLE_RATES then audio2.set_frame_rate 16000 else audio2
  if needs3 then { path := temp_path, exported := some audio3 }
  else { path := file_path, exported := none }

/-- The audio `_ensure_wav_format` exports when any conversion is needed:
channels down-mixed to 1, width re-quantized to 2 bytes, and the rate
resampled to 16000 only when it was unsupported. -/
def normalizedOf (audio : AudioSegment) : AudioSegment :=
  { channels := 1
    sample_width := 2
    frame_rate :=
      if audio.frame_rate ∈ SUPPORTED_SAMPLE_RATES then audio.frame_rate else 16000 }

/-- Outcome of the `ffprobe` invocation inside `AudioLoader.get_duration`:
the prober may be absent (`find_ffprobe` returns `None`), the subprocess or
the `float(...)` parse may raise, or a duration is parsed. -/
inductive ProbeOutcome where
  | proberAbsent
  | processFailure
  | malformedOutput
  | duration (d : ℚ)
deriving DecidableEq

/-- `AudioLoader.get_duration(file_path)` from `audio_loader.py`: the parsed
duration on success; `0.0` when the prober is absent or the
`try`/`except Exception` catches a process or parse failure. -/
def get_duration : ProbeOutcome → ℚ
  | .proberAbsent => 0
  | .processFailure => 0
  | .malformedOutput => 0
  | .duration d => d

/-- A successful match of the progress regex
`time=(\d{2}):(\d{2}):(\d{2}\.\d+)` on one stderr line of the transcoder. -/
structure Timestamp where
  h : Nat
  m : Nat
  s : ℚ
deriving DecidableEq

/-- `h * 3600 + m * 60 + s` — the elapsed seconds the loop computes from a
matched timestamp. -/
def Timestamp.seconds (t : Timestamp) : ℚ :=
  (t.h : ℚ) * 3600 + (t.m : ℚ) * 60 + t.s

/-- The progress-reporting read loop of `AudioLoader._convert_to_wav`:
for each stderr line (given as its regex-match result), if the line matched
and `total_duration > 0` and a callback was supplied, the loop calls
`progress_callback(min(100, current_seconds / total_duration * 100))`.
Returns the sequence of percentages emitted to the caller, in order. -/
def progressEmissions (total_duration : ℚ) (hasCallback : Bool) :
    List (Option Timestamp) → List ℚ
  | [] => []
  | line :: rest =>
    match line with
    | some t =>
      if 0 < total_duration ∧ hasCallback = true then
        min 100 (t.seconds / total_duration * 100) ::
          progressEmissions total_duration hasCallback rest
      else progressEmissions total_duration hasCallback rest
    | none => progressEmissions total_duration hasCallback rest

/-- The timestamps the parser observed, in order, converted to seconds. -/
def parsedTimes (lines : List (Option Timestamp)) : List ℚ :=
  (lines.filterMap id).map Timestamp.seconds

/-- Replace every `fault` outcome of the external classifier by a plain
non-speech decision (the degraded decision the `except` handler implements). -/
def suppressFaults (vad : Nat → VadOutcome) : Nat → VadOutcome :=
  fun i =>
    match vad i with
    | .fault => .nonspeech
    | o => o

/-!
## Frame-loop invariant
-/

/-- Invariant of the frame loop after `n` iterations: the speech-frame count
is at most `n`; every recorded segment lies in `[0, n·fdSec]` with positive
length; segments are pairwise non-overlapping with strictly increasing
starts; while a segment is open, it started at least one frame ago and after
every recorded segment; and the recorded segment lengths plus the open
segment's span account exactly for `speech_frames · fdSec`. -/
theorem runFrames_inv (fdSec : ℚ) (hfd : 0 < fdSec) (vad : Nat → VadOutcome) (n : Nat) :
    (runFrames fdSec vad n).speech_frames ≤ n ∧
    (∀ seg ∈ (runFrames fdSec vad n).speech_segments,
        0 ≤ seg.1 ∧ seg.1 < seg.2 ∧ seg.2 ≤ (n : ℚ) * fdSec) ∧
    (runFrames fdSec vad n).speech_segments.Pairwise
      (fun x y => x.2 ≤ y.1 ∧ x.1 < y.1) ∧
    ((runFrames fdSec vad n).is_speech_active = true →
        0 ≤ (runFrames fdSec vad n).segment_start ∧
        (runFrames fdSec vad n).segment_start + fdSec ≤ (n : ℚ) * fdSec ∧
        ∀ seg ∈ (runFrames fdSec vad n).speech_segments,
          seg.2 ≤ (runFrames fdSec vad n).segment_start) ∧
    ((runFrames fdSec vad n).speech_segments.map (fun s => s.2 - s.1)).sum
        + (if (runFrames fdSec vad n).is_speech_active then
            (n : ℚ) * fdSec - (runFrames fdSec vad n).segment_start else 0)
        = ((runFrames fdSec vad n).speech_frames : ℚ) * fdSec := by
  induction n with
  | zero => simp [runFrames, initState]
  | succ n ih =>
    obtain ⟨ih1, ih2, ih3, ih4, ih5⟩ := ih
    have hmono : (n : ℚ) * fdSec ≤ ((n + 1 : ℕ) : ℚ) * fdSec := by
      push_cast; nlinarith
    simp only [runFrames]
    cases hv : vad n with
    | speech =>
      cases ha : (runFrames fdSec vad n).is_speech_active with
      | true =>
        rw [ha] at ih5
        simp only [if_true] at ih5
        obtain ⟨hs0, hs1, hs2⟩ := ih4 ha
        simp only [stepFrame, ha, if_true]
        refine ⟨by omega, ?_, ih3, ?_, ?_⟩
        · intro seg hseg
          obtain ⟨h1, h2, h3⟩ := ih2 seg hseg
          exact ⟨h1, h2, le_trans h3 hmono⟩
        · intro _
          refine ⟨hs0, ?_, hs2⟩
          calc (runFrames fdSec vad n).segment_start + fdSec
              ≤ (n : ℚ) * fdSec := hs1
            _ ≤ ((n + 1 : ℕ) : ℚ) * fdSec := hmono
        · push_cast
          nlinarith [ih5]
      | false =>
        rw [ha] at ih5
        simp only [Bool.false_eq_true, if_false] at ih5
        simp only [stepFrame, ha, Bool.false_eq_true, if_false]
        refine ⟨by omega, ?_, ih3, ?_, ?_⟩
        · intro seg hseg
          obtain ⟨h1, h2, h3⟩ := ih2 seg hseg
          exact ⟨h1, h2, le_trans h3 hmono⟩
        · intro _
          refine ⟨by positivity, le_of_eq ?_, ?_⟩
          · push_cast; ring
          · intro seg hseg
            exact (ih2 seg hseg).2.2
        · simp only [if_true]
          push_cast
          nlinarith [ih5]
    | nonspeech =>
      cases ha : (runFrames fdSec vad n).is_speech_active with
      | true =>
        rw [ha] at ih5
        simp only [if_true] at ih5
        obtain ⟨hs0, hs1, hs2⟩ := ih4 ha
        simp only [stepFrame, ha, if_true]
        have hlt : (runFrames fdSec vad n).segment_start < (n : ℚ) * fdSec := by linarith
        refine ⟨by omega, ?_, ?_, ?_, ?_⟩
        · intro seg hseg
          rcases List.mem_append.mp hseg with h | h
          · obtain ⟨h1, h2, h3⟩ := ih2 seg h
            exact ⟨h1, h2, le_trans h3 hmono⟩
          · rcases List.mem_singleton.mp h with rfl
            exact ⟨hs0, hlt, hmono⟩
        · rw [List.pairwise_append]
          refine ⟨ih3, List.pairwise_singleton _ _, ?_⟩
          intro x hx y hy
          rcases List.mem_singleton.mp hy with rfl
          refine ⟨hs2 x hx, ?_⟩
          exact lt_of_lt_of_le (ih2 x hx).2.1 (hs2 x hx)
        · simp
        · simp only [Bool.false_eq_true, if_false, List.map_append, List.sum_append,
            List.map_singleton, List.sum_singleton]
          linarith [ih5]
      | false =>
        rw [ha] at ih5
        simp only [Bool.false_eq_true, if_false] at ih5
        simp only [stepFrame, ha, Bool.false_eq_true, if_false]
        refine ⟨by omega, ?_, ih3, ?_, ?_⟩
        · intro seg hseg
          obtain ⟨h1, h2, h3⟩ := ih2 seg hseg
          exact ⟨h1, h2, le_trans h3 hmono⟩
        · exact fun h => h.elim
        · exact ih5
    | fault =>
      cases ha : (runFrames fdSec vad n).is_speech_active with
      | true =>
        rw [ha] at ih5
        simp only [if_true] at ih5
        obtain ⟨hs0, hs1, hs2⟩ := ih4 ha
        simp only [stepFrame, ha, if_true]
        have hlt : (runFrames fdSec vad n).segment_start < (n : ℚ) * fdSec := by linarith
        refine ⟨by omega, ?_, ?_, ?_, ?_⟩
        · intro seg hseg
          rcases List.mem_append.mp hseg with h | h
          · obtain ⟨h1, h2, h3⟩ := ih2 seg h
            exact ⟨h1, h2, le_trans h3 hmono⟩
          · rcases List.mem_singleton.mp h with rfl
            exact ⟨hs0, hlt, hmono⟩
        · rw [List.pairwise_append]
          refine ⟨ih3, List.pairwise_singleton _ _, ?_⟩
          intro x hx y hy
          rcases List.mem_singleton.mp hy with rfl
          refine ⟨hs2 x hx, ?_⟩
          exact lt_of_lt_of_le (ih2 x hx).2.1 (hs2 x hx)
        · simp
        · simp only [Bool.false_eq_true, if_false, List.map_append, List.sum_append,
            List.map_singleton, List.sum_singleton]
          linarith [ih5]
      | false =>
        rw [ha] at ih5
        simp only [Bool.false_eq_true, if_false] at ih5
        simp only [stepFrame, ha, Bool.false_eq_true, if_false]
        refine ⟨by omega, ?_, ih3, ?_, ?_⟩
        · intro seg hseg
          obtain ⟨h1, h2, h3⟩ := ih2 seg hseg
          exact ⟨h1, h2, le_trans h3 hmono⟩
        · exact fun h => h.elim
        · exact ih5

/-!
## Inversion of `analyze` and frame-size arithmetic
-/

/-- A successful `analyze` call passed every format check and returned
exactly `analyzeResult` for the header the filesystem supplied. -/
theorem analyze_ok_inv (a : VADAnalyzer) (fs : String → Option WavFile)
    (vad : Nat → VadOutcome) (p : String) (r : AnalysisResult)
    (h : a.analyze fs vad p = .ok r) :
    ∃ audio, fs p = some audio ∧ audio.channels = 1 ∧ audio.sampleWidth = 2 ∧
      audio.sampleRate ∈ SUPPORTED_SAMPLE_RATES ∧ r = analyzeResult a audio vad p := by
  unfold VADAnalyzer.analyze at h
  split at h
  all_goals try exact Except.noConfusion h
  rename_i audio hfs
  split_ifs at h with h1 h2 h3
  exact ⟨audio, hfs, not_not.mp h1, not_not.mp h2, h3,
    (Except.ok.inj h).symm⟩

/-- For every supported sample rate and frame duration, the truncating
division inside `frame_size = int(sample_rate * frame_duration / 1000)` is
exact: `frame_size * 1000 = sample_rate * frame_duration`. -/
theorem frameSize_exact (rate fd : Nat) (hr : rate ∈ SUPPORTED_SAMPLE_RATES)
    (hf : fd ∈ ([10, 20, 30] : List Nat)) :
    frameSize rate fd * 1000 = rate * fd := by
  simp only [SUPPORTED_SAMPLE_RATES, List.mem_cons, List.mem_singleton,
    List.not_mem_nil, or_false] at hr hf
  rcases hr with rfl | rfl | rfl | rfl <;>
    rcases hf with rfl | rfl | rfl <;> decide

/-- The ceiling division `num_frames` overshoots the sample count by less
than one frame: `num_frames * frame_size ≤ n_frames + frame_size`. -/
theorem numFrames_mul_le (nF fsz : Nat) :
    numFrames nF fsz * fsz ≤ nF + fsz := by
  unfold numFrames
  have := Nat.div_mul_le_self (nF + fsz - 1) fsz
  omega

/-- Every sample is covered: `n_frames ≤ num_frames * frame_size`
(the final frame is zero-padded, never truncated). -/
theorem le_numFrames_mul (nF fsz : Nat) (h : 0 < fsz) :
    nF ≤ numFrames nF fsz * fsz := by
  unfold numFrames
  rcases Nat.eq_zero_or_pos nF with rfl | hn
  · simp
  · have hdm := Nat.div_add_mod (nF + fsz - 1) fsz
    have hm : (nF + fsz - 1) % fsz < fsz := Nat.mod_lt _ h
    have hcomm : (nF + fsz - 1) / fsz * fsz = fsz * ((nF + fsz - 1) / fsz) :=
      Nat.mul_comm _ _
    omega

/-!
## Projections of `analyzeResult` and derived bounds
-/

/-- Abbreviation used throughout: the loop's `frame_duration_sec`. -/
theorem analyzeResult_total_duration (a : VADAnalyzer) (audio : WavFile)
    (vad : Nat → VadOutcome) (p : String) :
    (analyzeResult a audio vad p).total_duration
      = (audio.nFrames : ℚ) / (audio.sampleRate : ℚ) := by
  simp [analyzeResult]

theorem analyzeResult_speech_duration (a : VADAnalyzer) (audio : WavFile)
    (vad : Nat → VadOutcome) (p : String) :
    (analyzeResult a audio vad p).speech_duration
      = ((runFrames ((a.frame_duration : ℚ) / 1000) vad
            (numFrames audio.nFrames (frameSize audio.sampleRate a.frame_duration))).speech_frames : ℚ)
          * ((a.frame_duration : ℚ) / 1000) := by
  simp [analyzeResult]

theorem analyzeResult_silence_duration (a : VADAnalyzer) (audio : WavFile)
    (vad : Nat → VadOutcome) (p : String) :
    (analyzeResult a audio vad p).silence_duration
      = max 0 ((analyzeResult a audio vad p).total_duration
          - (analyzeResult a audio vad p).speech_duration) := by
  simp [analyzeResult]

theorem analyzeResult_frame_duration (a : VADAnalyzer) (audio : WavFile)
    (vad : Nat → VadOutcome) (p : String) :
    (analyzeResult a audio vad p).frame_duration = a.frame_duration := by
  simp [analyzeResult]

theorem analyzeResult_speech_segments (a : VADAnalyzer) (audio : WavFile)
    (vad : Nat → VadOutcome) (p : String) :
    (analyzeResult a audio vad p).speech_segments
      = (if (runFrames ((a.frame_duration : ℚ) / 1000) vad
              (numFrames audio.nFrames (frameSize audio.sampleRate a.frame_duration))).is_speech_active
         then
           (runFrames ((a.frame_duration : ℚ) / 1000) vad
              (numFrames audio.nFrames (frameSize audio.sampleRate a.frame_duration))).speech_segments
             ++ [((runFrames ((a.frame_duration : ℚ) / 1000) vad
                    (numFrames audio.nFrames (frameSize audio.sampleRate a.frame_duration))).segment_start,
                  (numFrames audio.nFrames (frameSize audio.sampleRate a.frame_duration) : ℚ)
                    * ((a.frame_duration : ℚ) / 1000))]
         else
           (runFrames ((a.frame_duration : ℚ) / 1000) vad
              (numFrames audio.nFrames (frameSize audio.sampleRate a.frame_duration))).speech_segments) := by
  simp [analyzeResult]

/-- A supported frame duration gives a positive `frame_duration_sec`. -/
theorem fdSec_pos (fd : Nat) (hf : fd ∈ ([10, 20, 30] : List Nat)) :
    0 < (fd : ℚ) / 1000 := by
  simp only [List.mem_cons, List.mem_singleton, List.not_mem_nil, or_false] at hf
  rcases hf with rfl | rfl | rfl <;> norm_num

/-- A supported sample rate is positive. -/
theorem rate_pos (rate : Nat) (hr : rate ∈ SUPPORTED_SAMPLE_RATES) : 0 < rate := by
  simp only [SUPPORTED_SAMPLE_RATES, List.mem_cons, List.mem_singleton,
    List.not_mem_nil, or_false] at hr
  rcases hr with rfl | rfl | rfl | rfl <;> norm_num

/-- In exact arithmetic, `frame_size / sample_rate = frame_duration / 1000`. -/
theorem frameSize_div_rate (rate fd : Nat) (hr : rate ∈ SUPPORTED_SAMPLE_RATES)
    (hf : fd ∈ ([10, 20, 30] : List Nat)) :
    (frameSize rate fd : ℚ) / (rate : ℚ) = (fd : ℚ) / 1000 := by
  have hfz := frameSize_exact rate fd hr hf
  have hrq : (0 : ℚ) < (rate : ℚ) := by exact_mod_cast rate_pos rate hr
  have h1000 : (frameSize rate fd : ℚ) * 1000 = (rate : ℚ) * (fd : ℚ) := by
    exact_mod_cast hfz
  field_simp
  linarith [h1000]

/-- The total span of the frames exceeds the stream duration by less than
one frame: `num_frames · frame_duration_sec ≤ total_duration + frame_duration_sec`. -/
theorem numFrames_mul_fdSec_le (rate fd nF : Nat) (hr : rate ∈ SUPPORTED_SAMPLE_RATES)
    (hf : fd ∈ ([10, 20, 30] : List Nat)) :
    (numFrames nF (frameSize rate fd) : ℚ) * ((fd : ℚ) / 1000)
      ≤ (nF : ℚ) / (rate : ℚ) + (fd : ℚ) / 1000 := by
  have hq := frameSize_div_rate rate fd hr hf
  have hrq : (0 : ℚ) < (rate : ℚ) := by exact_mod_cast rate_pos rate hr
  have hle := numFrames_mul_le nF (frameSize rate fd)
  have hleq : ((numFrames nF (frameSize rate fd)) : ℚ) * (frameSize rate fd : ℚ)
      ≤ (nF : ℚ) + (frameSize rate fd : ℚ) := by exact_mod_cast hle
  calc (numFrames nF (frameSize rate fd) : ℚ) * ((fd : ℚ) / 1000)
      = (numFrames nF (frameSize rate fd) : ℚ) * ((frameSize rate fd : ℚ) / (rate : ℚ)) := by
        rw [hq]
    _ = ((numFrames nF (frameSize rate fd) : ℚ) * (frameSize rate fd : ℚ)) / (rate : ℚ) := by
        ring
    _ ≤ ((nF : ℚ) + (frameSize rate fd : ℚ)) / (rate : ℚ) := by
        exact (div_le_div_iff_of_pos_right hrq).mpr hleq
    _ = (nF : ℚ) / (rate : ℚ) + (frameSize rate fd : ℚ) / (rate : ℚ) := by ring
    _ = (nF : ℚ) / (rate : ℚ) + (fd : ℚ) / 1000 := by rw [hq]

/-- The stream duration fits inside the frames:
`total_duration ≤ num_frames · frame_duration_sec`. -/
theorem total_le_numFrames_mul_fdSec (rate fd nF : Nat) (hr : rate ∈ SUPPORTED_SAMPLE_RATES)
    (hf : fd ∈ ([10, 20, 30] : List Nat)) :
    (nF : ℚ) / (rate : ℚ) ≤ (numFrames nF (frameSize rate fd) : ℚ) * ((fd : ℚ) / 1000) := by
  have hq := frameSize_div_rate rate fd hr hf
  have hrq : (0 : ℚ) < (rate : ℚ) := by exact_mod_cast rate_pos rate hr
  have hfzpos : 0 < frameSize rate fd := by
    have hfz := frameSize_exact rate fd hr hf
    have hfd : 0 < fd := by
      simp only [List.mem_cons, List.mem_singleton, List.not_mem_nil, or_false] at hf
      rcases hf with rfl | rfl | rfl <;> norm_num
    have : 0 < rate * fd := Nat.mul_pos (rate_pos rate hr) hfd
    by_contra hc
    push_neg at hc
    interval_cases (frameSize rate fd)
    omega
  have hle := le_numFrames_mul nF (frameSize rate fd) hfzpos
  have hleq : (nF : ℚ) ≤ ((numFrames nF (frameSize rate fd)) : ℚ) * (frameSize rate fd : ℚ) := by
    exact_mod_cast hle
  calc (nF : ℚ) / (rate : ℚ)
      ≤ ((numFrames nF (frameSize rate fd) : ℚ) * (frameSize rate fd : ℚ)) / (rate : ℚ) := by
        exact (div_le_div_iff_of_pos_right hrq).mpr hleq
    _ = (numFrames nF (frameSize rate fd) : ℚ) * ((frameSize rate fd : ℚ) / (rate : ℚ)) := by
        ring
    _ = (numFrames nF (frameSize rate fd) : ℚ) * ((fd : ℚ) / 1000) := by rw [hq]

/-!
## Claims
-/

/-- C1: for every canonical WAV input accepted by `VADAnalyzer.analyze`
(the spec's `SegmentClassifier`, with a supported frame duration as the
constructor guarantees), the returned `AnalysisResult` satisfies
`silence_duration ≥ 0` (it is computed as
`max(0, total_duration - speech_duration)`) and
`speech_duration + silence_duration = total_duration` up to at most one
frame's duration `frame_duration_ms / 1000`. -/
theorem C1_duration_accounting (a : VADAnalyzer) (fs : String → Option WavFile)
    (vad : Nat → VadOutcome) (p : String) (r : AnalysisResult)
    (hf : a.frame_duration ∈ ([10, 20, 30] : List Nat))
    (h : a.analyze fs vad p = .ok r) :
    0 ≤ r.silence_duration ∧
    r.silence_duration = max 0 (r.total_duration - r.speech_duration) ∧
    r.total_duration ≤ r.speech_duration + r.silence_duration ∧
    r.speech_duration + r.silence_duration
      ≤ r.total_duration + (r.frame_duration : ℚ) / 1000 := by
  obtain ⟨audio, hfs, hch, hw, hr, rfl⟩ := analyze_ok_inv a fs vad p r h
  rw [analyzeResult_silence_duration, analyzeResult_speech_duration,
    analyzeResult_total_duration, analyzeResult_frame_duration]
  have hfdpos : 0 < (a.frame_duration : ℚ) / 1000 := fdSec_pos _ hf
  have hsf : ((runFrames ((a.frame_duration : ℚ) / 1000) vad
      (numFrames audio.nFrames (frameSize audio.sampleRate a.frame_duration))).speech_frames : ℚ)
      ≤ (numFrames audio.nFrames (frameSize audio.sampleRate a.frame_duration) : ℚ) := by
    exact_mod_cast (runFrames_inv ((a.frame_duration : ℚ) / 1000) hfdpos vad
      (numFrames audio.nFrames (frameSize audio.sampleRate a.frame_duration))).1
  have hbound := numFrames_mul_fdSec_le audio.sampleRate a.frame_duration audio.nFrames hr hf
  have hmul := mul_le_mul_of_nonneg_right hsf hfdpos.le
  refine ⟨le_max_left _ _, rfl, ?_, ?_⟩
  · linarith [le_max_right (0 : ℚ)
      ((audio.nFrames : ℚ) / (audio.sampleRate : ℚ)
        - ((runFrames ((a.frame_duration : ℚ) / 1000) vad
            (numFrames audio.nFrames (frameSize audio.sampleRate a.frame_duration))).speech_frames : ℚ)
          * ((a.frame_duration : ℚ) / 1000))]
  · rcases max_cases (0 : ℚ)
      ((audio.nFrames : ℚ) / (audio.sampleRate : ℚ)
        - ((runFrames ((a.frame_duration : ℚ) / 1000) vad
            (numFrames audio.nFrames (frameSize audio.sampleRate a.frame_duration))).speech_frames : ℚ)
          * ((a.frame_duration : ℚ) / 1000)) with ⟨heq, hle⟩ | ⟨heq, hle⟩ <;>
      rw [heq] <;> linarith

/-- Witness for C1 at a concrete input: a 160-sample mono 16-bit 8 kHz WAV,
every frame classified as speech (this input exercises the `max(0, ·)`
clamp: one 30 ms frame of speech against a 20 ms stream). -/
theorem C1_duration_accounting_witness :
    0 ≤ (analyzeResult (VADAnalyzer.mk' 2 30) ⟨1, 2, 8000, 160⟩
          (fun _ => .speech) "a.wav").silence_duration ∧
    (analyzeResult (VADAnalyzer.mk' 2 30) ⟨1, 2, 8000, 160⟩
          (fun _ => .speech) "a.wav").silence_duration
      = max 0 ((analyzeResult (VADAnalyzer.mk' 2 30) ⟨1, 2, 8000, 160⟩
          (fun _ => .speech) "a.wav").total_duration
        - (analyzeResult (VADAnalyzer.mk' 2 30) ⟨1, 2, 8000, 160⟩
          (fun _ => .speech) "a.wav").speech_duration) ∧
    (analyzeResult (VADAnalyzer.mk' 2 30) ⟨1, 2, 8000, 160⟩
          (fun _ => .speech) "a.wav").total_duration
      ≤ (analyzeResult (VADAnalyzer.mk' 2 30) ⟨1, 2, 8000, 160⟩
          (fun _ => .speech) "a.wav").speech_duration
        + (analyzeResult (VADAnalyzer.mk' 2 30) ⟨1, 2, 8000, 160⟩
          (fun _ => .speech) "a.wav").silence_duration ∧
    (analyzeResult (VADAnalyzer.mk' 2 30) ⟨1, 2, 8000, 160⟩
          (fun _ => .speech) "a.wav").speech_duration
      + (analyzeResult (VADAnalyzer.mk' 2 30) ⟨1, 2, 8000, 160⟩
          (fun _ => .speech) "a.wav").silence_duration
      ≤ (analyzeResult (VADAnalyzer.mk' 2 30) ⟨1, 2, 8000, 160⟩
          (fun _ => .speech) "a.wav").total_duration
        + ((analyzeResult (VADAnalyzer.mk' 2 30) ⟨1, 2, 8000, 160⟩
          (fun _ => .speech) "a.wav").frame_duration : ℚ) / 1000 :=
  C1_duration_accounting (VADAnalyzer.mk' 2 30)
    (fun _ => some ⟨1, 2, 8000, 160⟩) (fun _ => .speech) "a.wav"
    (analyzeResult (VADAnalyzer.mk' 2 30) ⟨1, 2, 8000, 160⟩ (fun _ => .speech) "a.wav")
    (by decide) rfl

/-- C5: for every `AnalysisResult`, `speech_percentage + silence_percentage`
is exactly `100` whenever `total_duration > 0`, and when `total_duration ≤ 0`
the percentages are `0` and `100`; the guard in `speech_percentage` means no
division by a non-positive duration ever happens. -/
theorem C5_percentage_sum (r : AnalysisResult) :
    (0 < r.total_duration →
      r.speech_percentage + r.silence_percentage = 100) ∧
    (r.total_duration ≤ 0 →
      r.speech_percentage = 0 ∧ r.silence_percentage = 100) := by
  unfold AnalysisResult.silence_percentage AnalysisResult.speech_percentage
  constructor
  · intro _; ring
  · intro h
    rw [if_pos h]
    norm_num

/-- Witness for C5: a 2-second result with 0.5 s of speech (positive
duration), and the all-zero degenerate result (zero duration). -/
theorem C5_percentage_sum_witness :
    ((⟨"p", "p", 2, 1/2, 3/2, 16000, 2, 30, []⟩ : AnalysisResult).speech_percentage
        + (⟨"p", "p", 2, 1/2, 3/2, 16000, 2, 30, []⟩ : AnalysisResult).silence_percentage
      = 100) ∧
    ((⟨"p", "p", 0, 0, 0, 16000, 2, 30, []⟩ : AnalysisResult).speech_percentage = 0 ∧
      (⟨"p", "p", 0, 0, 0, 16000, 2, 30, []⟩ : AnalysisResult).silence_percentage = 100) :=
  ⟨(C5_percentage_sum ⟨"p", "p", 2, 1/2, 3/2, 16000, 2, 30, []⟩).1 (by norm_num),
    (C5_percentage_sum ⟨"p", "p", 0, 0, 0, 16000, 2, 30, []⟩).2 (by norm_num)⟩

/-- C6: the constructor never rejects its parameters: `sensitivity` is
clamped into `{0,1,2,3}` (values ≥ 3 become 3, values ≤ 0 become 0,
in-range values pass through) and `frame_duration` is kept only when in
`{10,20,30}`, any other value being forced to 30. -/
theorem C6_parameter_clamping (s fd : Int) :
    (VADAnalyzer.mk' s fd).sensitivity ∈ ([0, 1, 2, 3] : List Nat) ∧
    (3 ≤ s → (VADAnalyzer.mk' s fd).sensitivity = 3) ∧
    (s ≤ 0 → (VADAnalyzer.mk' s fd).sensitivity = 0) ∧
    (0 ≤ s → s ≤ 3 → ((VADAnalyzer.mk' s fd).sensitivity : Int) = s) ∧
    (VADAnalyzer.mk' s fd).frame_duration ∈ ([10, 20, 30] : List Nat) ∧
    (fd ∉ SUPPORTED_FRAME_DURATIONS → (VADAnalyzer.mk' s fd).frame_duration = 30) ∧
    (fd ∈ SUPPORTED_FRAME_DURATIONS → ((VADAnalyzer.mk' s fd).frame_duration : Int) = fd) := by
  unfold VADAnalyzer.mk'
  refine ⟨?_, ?_, ?_, ?_, ?_, ?_, ?_⟩
  · simp only [List.mem_cons, List.mem_singleton, List.not_mem_nil, or_false]
    omega
  · intro h; simp only; omega
  · intro h; simp only; omega
  · intro h1 h2; simp only; omega
  · simp only
    split_ifs with h
    · simp only [SUPPORTED_FRAME_DURATIONS, List.mem_cons, List.mem_singleton,
        List.not_mem_nil, or_false] at h
      rcases h with rfl | rfl | rfl <;> decide
    · decide
  · intro h; simp only [h, if_false]
  · intro h; simp only [h, if_true]
    simp only [SUPPORTED_FRAME_DURATIONS, List.mem_cons, List.mem_singleton,
      List.not_mem_nil, or_false] at h
    rcases h with rfl | rfl | rfl <;> decide

/-- Witness for C6: sensitivity 9 is clamped to 3, sensitivity -2 to 0, an
in-range sensitivity 1 passes through, and frame duration 50 is forced
to 30 while 20 passes through. -/
theorem C6_parameter_clamping_witness :
    (VADAnalyzer.mk' 9 50).sensitivity = 3 ∧
    (VADAnalyzer.mk' (-2) 50).sensitivity = 0 ∧
    ((VADAnalyzer.mk' 1 20).sensitivity : Int) = 1 ∧
    (VADAnalyzer.mk' 9 50).frame_duration = 30 ∧
    ((VADAnalyzer.mk' 1 20).frame_duration : Int) = 20 :=
  ⟨(C6_parameter_clamping 9 50).2.1 (by norm_num),
    (C6_parameter_clamping (-2) 50).2.2.1 (by norm_num),
    (C6_parameter_clamping 1 20).2.2.2.1 (by norm_num) (by norm_num),
    (C6_parameter_clamping 9 50).2.2.2.2.2.1 (by decide),
    (C6_parameter_clamping 1 20).2.2.2.2.2.2 (by decide)⟩

/-- C3: `analyze` fails fast, before any classification: a missing file, a
non-mono layout, a non-16-bit width, or an unsupported rate each yield the
corresponding error (checked in that order), and an error outcome is never
an `AnalysisResult`. -/
theorem C3_fail_fast (a : VADAnalyzer) (fs : String → Option WavFile)
    (vad : Nat → VadOutcome) (p : String) :
    (fs p = none → a.analyze fs vad p = .error .fileNotFound) ∧
    (∀ w, fs p = some w → w.channels ≠ 1 →
        a.analyze fs vad p = .error .unsupportedChannelLayout) ∧
    (∀ w, fs p = some w → w.channels = 1 → w.sampleWidth ≠ 2 →
        a.analyze fs vad p = .error .unsupportedSampleWidth) ∧
    (∀ w, fs p = some w → w.channels = 1 → w.sampleWidth = 2 →
        w.sampleRate ∉ SUPPORTED_SAMPLE_RATES →
        a.analyze fs vad p = .error .unsupportedSampleRate) ∧
    (∀ e, a.analyze fs vad p = .error e → ∀ r, a.analyze fs vad p ≠ .ok r) := by
  refine ⟨?_, ?_, ?_, ?_, ?_⟩
  · intro h; unfold VADAnalyzer.analyze; rw [h]
  · intro w hw hch; unfold VADAnalyzer.analyze; rw [hw]; simp [hch]
  · intro w hw hch hsw; unfold VADAnalyzer.analyze; rw [hw]; simp [hch, hsw]
  · intro w hw hch hsw hsr; unfold VADAnalyzer.analyze; rw [hw]; simp [hch, hsw, hsr]
  · intro e he r hr
    rw [he] at hr
    exact Except.noConfusion hr

/-- Witness for C3: each of the four precondition failures at a concrete
input, plus the no-partial-result conjunct at the missing-file input. -/
theorem C3_fail_fast_witness :
    (VADAnalyzer.mk' 2 30).analyze (fun _ => none) (fun _ => .speech) "x.wav"
        = .error .fileNotFound ∧
    (VADAnalyzer.mk' 2 30).analyze (fun _ => some ⟨2, 2, 16000, 100⟩)
        (fun _ => .speech) "x.wav" = .error .unsupportedChannelLayout ∧
    (VADAnalyzer.mk' 2 30).analyze (fun _ => some ⟨1, 1, 16000, 100⟩)
        (fun _ => .speech) "x.wav" = .error .unsupportedSampleWidth ∧
    (VADAnalyzer.mk' 2 30).analyze (fun _ => some ⟨1, 2, 44100, 100⟩)
        (fun _ => .speech) "x.wav" = .error .unsupportedSampleRate ∧
    (VADAnalyzer.mk' 2 30).analyze (fun _ => none) (fun _ => .speech) "x.wav"
        ≠ .ok (analyzeResult (VADAnalyzer.mk' 2 30) ⟨1, 2, 16000, 100⟩
            (fun _ => .speech) "x.wav") :=
  ⟨(C3_fail_fast (VADAnalyzer.mk' 2 30) (fun _ => none) (fun _ => .speech) "x.wav").1 rfl,
    (C3_fail_fast (VADAnalyzer.mk' 2 30) (fun _ => some ⟨2, 2, 16000, 100⟩)
      (fun _ => .speech) "x.wav").2.1 ⟨2, 2, 16000, 100⟩ rfl (by decide),
    (C3_fail_fast (VADAnalyzer.mk' 2 30) (fun _ => some ⟨1, 1, 16000, 100⟩)
      (fun _ => .speech) "x.wav").2.2.1 ⟨1, 1, 16000, 100⟩ rfl rfl (by decide),
    (C3_fail_fast (VADAnalyzer.mk' 2 30) (fun _ => some ⟨1, 2, 44100, 100⟩)
      (fun _ => .speech) "x.wav").2.2.2.1 ⟨1, 2, 44100, 100⟩ rfl rfl rfl (by decide),
    (C3_fail_fast (VADAnalyzer.mk' 2 30) (fun _ => none)
      (fun _ => .speech) "x.wav").2.2.2.2 .fileNotFound rfl
      (analyzeResult (VADAnalyzer.mk' 2 30) ⟨1, 2, 16000, 100⟩ (fun _ => .speech) "x.wav")⟩

/-- The frame loop is blind to the difference between a classifier fault and
a non-speech decision: the `except` handler makes them take the same path. -/
theorem runFrames_suppressFaults (fdSec : ℚ) (vad : Nat → VadOutcome) (n : Nat) :
    runFrames fdSec (suppressFaults vad) n = runFrames fdSec vad n := by
  induction n with
  | zero => rfl
  | succ n ih =>
    simp only [runFrames, ih]
    cases hv : vad n <;> simp [suppressFaults, hv, stepFrame]

/-- `analyze` is unchanged when faults are replaced by non-speech decisions. -/
theorem analyze_suppressFaults (a : VADAnalyzer) (fs : String → Option WavFile)
    (vad : Nat → VadOutcome) (p : String) :
    a.analyze fs (suppressFaults vad) p = a.analyze fs vad p := by
  unfold VADAnalyzer.analyze analyzeResult
  simp only [runFrames_suppressFaults]

/-- Success of `analyze` depends only on the format checks, never on the
classifier's decisions or faults. -/
theorem analyze_isOk_iff (a : VADAnalyzer) (fs : String → Option WavFile)
    (vad : Nat → VadOutcome) (p : String) :
    (a.analyze fs vad p).isOk = true ↔
      ∃ w, fs p = some w ∧ w.channels = 1 ∧ w.sampleWidth = 2 ∧
        w.sampleRate ∈ SUPPORTED_SAMPLE_RATES := by
  unfold VADAnalyzer.analyze
  cases hfs : fs p with
  | none => simp [Except.isOk, Except.toBool]
  | some w =>
    dsimp only
    split_ifs with h1 h2 h3 <;>
      simp_all [Except.isOk, Except.toBool]

/-- C8: a per-frame fault of the external voice-activity decision is treated
as non-speech — the step function takes the identical path for `fault` and
`nonspeech`, so any open segment is closed at that frame's boundary — the
fault is never propagated (`analyze` on a faulting classifier equals
`analyze` on the degraded fault-free one), and the analysis still completes
with a full `AnalysisResult` exactly when the format checks pass, faults or
not. -/
theorem C8_fault_degrade (a : VADAnalyzer) (fs : String → Option WavFile)
    (vad : Nat → VadOutcome) (p : String) :
    (∀ (fdSec : ℚ) (i : Nat) (st : LoopState),
        stepFrame fdSec i .fault st = stepFrame fdSec i .nonspeech st) ∧
    a.analyze fs vad p = a.analyze fs (suppressFaults vad) p ∧
    ((a.analyze fs vad p).isOk = true ↔
      (a.analyze fs (fun _ => .nonspeech) p).isOk = true) := by
  refine ⟨fun fdSec i st => rfl, (analyze_suppressFaults a fs vad p).symm, ?_⟩
  rw [analyze_isOk_iff, analyze_isOk_iff]

/-- C2: the segment list of every `analyze` run has strictly positive-length
segments, pairwise non-overlapping and strictly increasing in start time;
every segment ends by the end of the frame stream, and if the stream ends
with a segment still open, the last emitted segment is exactly that segment
closed at `total_frame_count * frame_duration_ms / 1000`. -/
theorem C2_segment_invariants (a : VADAnalyzer) (fs : String → Option WavFile)
    (vad : Nat → VadOutcome) (p : String) (r : AnalysisResult)
    (hf : a.frame_duration ∈ ([10, 20, 30] : List Nat))
    (h : a.analyze fs vad p = .ok r) :
    (∀ seg ∈ r.speech_segments, seg.1 < seg.2) ∧
    r.speech_segments.Pairwise (fun x y => x.2 ≤ y.1 ∧ x.1 < y.1) ∧
    ∀ w, fs p = some w →
      (∀ seg ∈ r.speech_segments,
          seg.2 ≤ (numFrames w.nFrames (frameSize w.sampleRate a.frame_duration) : ℚ)
            * ((a.frame_duration : ℚ) / 1000)) ∧
      ((runFrames ((a.frame_duration : ℚ) / 1000) vad
          (numFrames w.nFrames (frameSize w.sampleRate a.frame_duration))).is_speech_active
            = true →
        r.speech_segments.getLast?
          = some ((runFrames ((a.frame_duration : ℚ) / 1000) vad
              (numFrames w.nFrames (frameSize w.sampleRate a.frame_duration))).segment_start,
            (numFrames w.nFrames (frameSize w.sampleRate a.frame_duration) : ℚ)
              * ((a.frame_duration : ℚ) / 1000))) := by
  obtain ⟨audio, hfs, hch, hwd, hrt, rfl⟩ := analyze_ok_inv a fs vad p r h
  have hfdpos : 0 < (a.frame_duration : ℚ) / 1000 := fdSec_pos _ hf
  obtain ⟨inv1, inv2, inv3, inv4, inv5⟩ :=
    runFrames_inv ((a.frame_duration : ℚ) / 1000) hfdpos vad
      (numFrames audio.nFrames (frameSize audio.sampleRate a.frame_duration))
  rw [analyzeResult_speech_segments]
  by_cases hact : (runFrames ((a.frame_duration : ℚ) / 1000) vad
      (numFrames audio.nFrames (frameSize audio.sampleRate a.frame_duration))).is_speech_active
        = true
  · rw [if_pos hact]
    obtain ⟨hstart0, hstartle, hends⟩ := inv4 hact
    have hstartlt : (runFrames ((a.frame_duration : ℚ) / 1000) vad
        (numFrames audio.nFrames (frameSize audio.sampleRate a.frame_duration))).segment_start
        < (numFrames audio.nFrames (frameSize audio.sampleRate a.frame_duration) : ℚ)
            * ((a.frame_duration : ℚ) / 1000) := by linarith
    refine ⟨?_, ?_, ?_⟩
    · intro seg hseg
      rcases List.mem_append.mp hseg with hm | hm
      · exact (inv2 seg hm).2.1
      · rcases List.mem_singleton.mp hm with rfl
        exact hstartlt
    · rw [List.pairwise_append]
      refine ⟨inv3, List.pairwise_singleton _ _, ?_⟩
      intro x hx y hy
      rcases List.mem_singleton.mp hy with rfl
      exact ⟨hends x hx, lt_of_lt_of_le (inv2 x hx).2.1 (hends x hx)⟩
    · intro w hw
      rw [hfs] at hw
      injection hw with hw
      subst hw
      refine ⟨?_, fun _ => ?_⟩
      · intro seg hseg
        rcases List.mem_append.mp hseg with hm | hm
        · exact (inv2 seg hm).2.2
        · rcases List.mem_singleton.mp hm with rfl
          exact le_refl _
      · rw [List.getLast?_concat]
  · rw [if_neg hact]
    refine ⟨fun seg hseg => (inv2 seg hseg).2.1, inv3, ?_⟩
    intro w hw
    rw [hfs] at hw
    injection hw with hw
    subst hw
    exact ⟨fun seg hseg => (inv2 seg hseg).2.2, fun hc => absurd hc hact⟩

/-- Witness for C2 at a concrete run: 8 kHz, 240 samples, 10 ms frames
(3 frames), classified speech, non-speech, speech — one closed segment and
one segment still open at the end of the stream. -/
theorem C2_segment_invariants_witness :
    (∀ seg ∈ (analyzeResult (VADAnalyzer.mk' 2 10) ⟨1, 2, 8000, 240⟩
        (fun i => if i = 1 then .nonspeech else .speech) "w.wav").speech_segments,
      seg.1 < seg.2) ∧
    (analyzeResult (VADAnalyzer.mk' 2 10) ⟨1, 2, 8000, 240⟩
        (fun i => if i = 1 then .nonspeech else .speech) "w.wav").speech_segments.Pairwise
      (fun x y => x.2 ≤ y.1 ∧ x.1 < y.1) ∧
    ∀ w, (fun _ : String => some (⟨1, 2, 8000, 240⟩ : WavFile)) "w.wav" = some w →
      (∀ seg ∈ (analyzeResult (VADAnalyzer.mk' 2 10) ⟨1, 2, 8000, 240⟩
          (fun i => if i = 1 then .nonspeech else .speech) "w.wav").speech_segments,
          seg.2 ≤ (numFrames w.nFrames
              (frameSize w.sampleRate (VADAnalyzer.mk' 2 10).frame_duration) : ℚ)
            * (((VADAnalyzer.mk' 2 10).frame_duration : ℚ) / 1000)) ∧
      ((runFrames (((VADAnalyzer.mk' 2 10).frame_duration : ℚ) / 1000)
          (fun i => if i = 1 then .nonspeech else .speech)
          (numFrames w.nFrames
            (frameSize w.sampleRate (VADAnalyzer.mk' 2 10).frame_duration))).is_speech_active
            = true →
        (analyzeResult (VADAnalyzer.mk' 2 10) ⟨1, 2, 8000, 240⟩
            (fun i => if i = 1 then .nonspeech else .speech) "w.wav").speech_segments.getLast?
          = some ((runFrames (((VADAnalyzer.mk' 2 10).frame_duration : ℚ) / 1000)
              (fun i => if i = 1 then .nonspeech else .speech)
              (numFrames w.nFrames
                (frameSize w.sampleRate (VADAnalyzer.mk' 2 10).frame_duration))).segment_start,
            (numFrames w.nFrames
                (frameSize w.sampleRate (VADAnalyzer.mk' 2 10).frame_duration) : ℚ)
              * (((VADAnalyzer.mk' 2 10).frame_duration : ℚ) / 1000))) :=
  C2_segment_invariants (VADAnalyzer.mk' 2 10)
    (fun _ => some ⟨1, 2, 8000, 240⟩)
    (fun i => if i = 1 then .nonspeech else .speech) "w.wav"
    (analyzeResult (VADAnalyzer.mk' 2 10) ⟨1, 2, 8000, 240⟩
      (fun i => if i = 1 then .nonspeech else .speech) "w.wav")
    (by decide) rfl

/-- C10: in exact rational arithmetic the lengths of the emitted speech
segments sum to `speech_duration`, which itself is the number of
speech-classified frames times `frame_duration_ms / 1000`: every
speech-classified frame is accounted for by exactly one segment. -/
theorem C10_segment_length_sum (a : VADAnalyzer) (fs : String → Option WavFile)
    (vad : Nat → VadOutcome) (p : String) (r : AnalysisResult)
    (hf : a.frame_duration ∈ ([10, 20, 30] : List Nat))
    (h : a.analyze fs vad p = .ok r) :
    (r.speech_segments.map (fun s => s.2 - s.1)).sum = r.speech_duration ∧
    ∀ w, fs p = some w →
      r.speech_duration
        = ((runFrames ((a.frame_duration : ℚ) / 1000) vad
            (numFrames w.nFrames (frameSize w.sampleRate a.frame_duration))).speech_frames : ℚ)
          * ((a.frame_duration : ℚ) / 1000) := by
  obtain ⟨audio, hfs, hch, hwd, hrt, rfl⟩ := analyze_ok_inv a fs vad p r h
  have hfdpos : 0 < (a.frame_duration : ℚ) / 1000 := fdSec_pos _ hf
  obtain ⟨-, -, -, -, inv5⟩ :=
    runFrames_inv ((a.frame_duration : ℚ) / 1000) hfdpos vad
      (numFrames audio.nFrames (frameSize audio.sampleRate a.frame_duration))
  rw [analyzeResult_speech_segments, analyzeResult_speech_duration]
  constructor
  · by_cases hact : (runFrames ((a.frame_duration : ℚ) / 1000) vad
        (numFrames audio.nFrames (frameSize audio.sampleRate a.frame_duration))).is_speech_active
          = true
    · rw [if_pos hact]
      rw [if_pos hact] at inv5
      simp only [List.map_append, List.sum_append, List.map_cons, List.map_nil,
        List.sum_cons, List.sum_nil]
      linarith [inv5]
    · rw [if_neg hact]
      rw [if_neg hact] at inv5
      linarith [inv5]
  · intro w hw
    rw [hfs] at hw
    injection hw with hw
    subst hw
    rfl

/-- Witness for C10 at the same concrete 3-frame run as C2's witness:
segment lengths 0.01 s + 0.01 s sum to the two speech frames times 0.01 s. -/
theorem C10_segment_length_sum_witness :
    ((analyzeResult (VADAnalyzer.mk' 2 10) ⟨1, 2, 8000, 240⟩
        (fun i => if i = 2 then .speech else .nonspeech) "s.wav").speech_segments.map
      (fun s => s.2 - s.1)).sum
      = (analyzeResult (VADAnalyzer.mk' 2 10) ⟨1, 2, 8000, 240⟩
          (fun i => if i = 2 then .speech else .nonspeech) "s.wav").speech_duration ∧
    ∀ w, (fun _ : String => some (⟨1, 2, 8000, 240⟩ : WavFile)) "s.wav" = some w →
      (analyzeResult (VADAnalyzer.mk' 2 10) ⟨1, 2, 8000, 240⟩
          (fun i => if i = 2 then .speech else .nonspeech) "s.wav").speech_duration
        = ((runFrames (((VADAnalyzer.mk' 2 10).frame_duration : ℚ) / 1000)
            (fun i => if i = 2 then .speech else .nonspeech)
            (numFrames w.nFrames
              (frameSize w.sampleRate (VADAnalyzer.mk' 2 10).frame_duration))).speech_frames : ℚ)
          * (((VADAnalyzer.mk' 2 10).frame_duration : ℚ) / 1000) :=
  C10_segment_length_sum (VADAnalyzer.mk' 2 10)
    (fun _ => some ⟨1, 2, 8000, 240⟩)
    (fun i => if i = 2 then .speech else .nonspeech) "s.wav"
    (analyzeResult (VADAnalyzer.mk' 2 10) ⟨1, 2, 8000, 240⟩
      (fun i => if i = 2 then .speech else .nonspeech) "s.wav")
    (by decide) rfl

/-- `_ensure_wav_format` either hands back the original path untouched (the
audio was already canonical) or writes the normalized audio to the fresh
temp path. -/
theorem ensure_wav_format_eq (audio : AudioSegment) (p t : String) :
    ensure_wav_format audio p t
      = if audio.isCanonical then ⟨p, none⟩ else ⟨t, some (normalizedOf audio)⟩ := by
  unfold ensure_wav_format normalizedOf AudioSegment.isCanonical
  by_cases h1 : audio.channels = 1 <;> by_cases h2 : audio.sample_width = 2 <;>
    by_cases h3 : audio.frame_rate ∈ SUPPORTED_SAMPLE_RATES <;>
      simp [h1, h2, h3, AudioSegment.set_channels, AudioSegment.set_sample_width,
        AudioSegment.set_frame_rate]

/-- The audio exported by a conversion satisfies the canonical contract. -/
theorem normalizedOf_isCanonical (audio : AudioSegment) :
    (normalizedOf audio).isCanonical := by
  unfold normalizedOf AudioSegment.isCanonical
  by_cases h : audio.frame_rate ∈ SUPPORTED_SAMPLE_RATES
  · simp only [if_pos h]
    exact ⟨by trivial, by trivial, h⟩
  · simp only [if_neg h]
    exact ⟨by trivial, by trivial, by decide⟩

/-- C7: normalization is idempotent — an already-canonical WAV comes back as
the identical input path with nothing written, and whatever a conversion
exports is canonical, so re-normalizing the output is a no-op returning that
path unchanged. -/
theorem C7_normalize_idempotent (audio : AudioSegment) (p t : String) :
    (audio.isCanonical → ensure_wav_format audio p t = ⟨p, none⟩) ∧
    (∀ a', (ensure_wav_format audio p t).exported = some a' →
      ∀ p' t', ensure_wav_format a' p' t' = ⟨p', none⟩) := by
  constructor
  · intro h
    rw [ensure_wav_format_eq, if_pos h]
  · intro a' ha' p' t'
    rw [ensure_wav_format_eq] at ha'
    split_ifs at ha' with h
    have hn : normalizedOf audio = a' := by simpa using ha'
    rw [ensure_wav_format_eq, if_pos (hn ▸ normalizedOf_isCanonical audio)]

/-- Witness for C7: a canonical 16 kHz mono 16-bit WAV passes through
untouched, and the output of normalizing a 2-channel 8-bit 44.1 kHz WAV is
itself a fixed point of normalization. -/
theorem C7_normalize_idempotent_witness :
    ensure_wav_format ⟨1, 2, 16000⟩ "orig.wav" "tmp1.wav" = ⟨"orig.wav", none⟩ ∧
    ensure_wav_format ⟨1, 2, 16000⟩ "tmp2.wav" "tmp3.wav" = ⟨"tmp2.wav", none⟩ :=
  ⟨(C7_normalize_idempotent ⟨1, 2, 16000⟩ "orig.wav" "tmp1.wav").1 (by decide),
    (C7_normalize_idempotent ⟨2, 1, 44100⟩ "in.wav" "tmp2.wav").2
      ⟨1, 2, 16000⟩ rfl "tmp2.wav" "tmp3.wav"⟩

/-- With a non-positive total duration the guard `total_duration > 0` fails
on every line, so the read loop emits nothing at all. -/
theorem progressEmissions_nonpos (D : ℚ) (hD : D ≤ 0) (cb : Bool)
    (lines : List (Option Timestamp)) :
    progressEmissions D cb lines = [] := by
  induction lines with
  | nil => rfl
  | cons l rest ih =>
    cases l with
    | none => simpa [progressEmissions] using ih
    | some t =>
      have hc : ¬ (0 < D ∧ cb = true) := fun hcc => absurd hD (not_le.mpr hcc.1)
      simpa [progressEmissions, hc] using ih

/-- C9: `get_duration` returns 0 on every failure (prober absent, process
error, malformed output) instead of raising, and whenever the discovered
duration is 0 — in fact whenever it is not positive — the transcode loop
emits no progress value at all, so the percentage division is never reached
with a zero divisor. -/
theorem C9_duration_zero_on_failure :
    (get_duration .proberAbsent = 0 ∧ get_duration .processFailure = 0 ∧
      get_duration .malformedOutput = 0) ∧
    (∀ (d : ℚ), get_duration (.duration d) = d) ∧
    (∀ (o : ProbeOutcome) (cb : Bool) (lines : List (Option Timestamp)),
      get_duration o = 0 → progressEmissions (get_duration o) cb lines = []) ∧
    (∀ (D : ℚ) (cb : Bool) (lines : List (Option Timestamp)),
      D ≤ 0 → progressEmissions D cb lines = []) := by
  refine ⟨⟨rfl, rfl, rfl⟩, fun d => rfl, ?_, ?_⟩
  · intro o cb lines h
    rw [h]
    exact progressEmissions_nonpos 0 le_rfl cb lines
  · intro D cb lines hD
    exact progressEmissions_nonpos D hD cb lines

/-- Witness for C9: with the prober absent the duration is 0 and a matched
10-second timestamp line emits nothing. -/
theorem C9_duration_zero_on_failure_witness :
    progressEmissions (get_duration .proberAbsent) true [some ⟨0, 0, 10⟩] = [] :=
  C9_duration_zero_on_failure.2.2.1 .proberAbsent true [some ⟨0, 0, 10⟩] rfl

/-- Closed form of the read loop: when the duration is positive and a
callback is installed, each matched line emits
`min(100, seconds/duration · 100)` for its own timestamp; otherwise nothing
is emitted. -/
theorem progressEmissions_eq (D : ℚ) (cb : Bool) (lines : List (Option Timestamp)) :
    progressEmissions D cb lines
      = if 0 < D ∧ cb = true then
          (parsedTimes lines).map (fun t => min 100 (t / D * 100))
        else [] := by
  induction lines with
  | nil =>
    simp [progressEmissions, parsedTimes]
  | cons l rest ih =>
    cases l with
    | none =>
      rw [show progressEmissions D cb (none :: rest) = progressEmissions D cb rest from rfl, ih]
      congr 1
    | some t =>
      by_cases hD : 0 < D ∧ cb = true
      · rw [show progressEmissions D cb (some t :: rest)
            = if 0 < D ∧ cb = true then
                min 100 (t.seconds / D * 100) :: progressEmissions D cb rest
              else progressEmissions D cb rest from rfl]
        rw [if_pos hD, if_pos hD, ih, if_pos hD]
        simp [parsedTimes]
      · rw [show progressEmissions D cb (some t :: rest)
            = if 0 < D ∧ cb = true then
                min 100 (t.seconds / D * 100) :: progressEmissions D cb rest
              else progressEmissions D cb rest from rfl]
        rw [if_neg hD, if_neg hD, ih, if_neg hD]

/-- C4 counterexample: the read loop of `_convert_to_wav` does not clamp to
the previous emission.  With a 20-second source and stderr lines carrying
elapsed times 10 s then 5 s, the caller receives 50 followed by 25 — a
strictly lower value than the previous emission in the same job. -/
theorem C4_counterexample :
    progressEmissions 20 true [some ⟨0, 0, 10⟩, some ⟨0, 0, 5⟩] = [50, 25] ∧
    ¬ List.Chain' (· ≤ ·) (progressEmissions 20 true [some ⟨0, 0, 10⟩, some ⟨0, 0, 5⟩]) := by
  have he : progressEmissions 20 true [some ⟨0, 0, 10⟩, some ⟨0, 0, 5⟩] = [50, 25] := by
    rw [progressEmissions_eq, if_pos (by norm_num)]
    simp [parsedTimes, Timestamp.seconds]
    norm_num
  refine ⟨he, ?_⟩
  rw [he]
  simp [List.chain'_cons]
  norm_num

/-- C4 amended: each emission is `min(100, 100 · t / total_duration)` for
that line's own parsed timestamp `t`, so the emitted sequence is monotone
non-decreasing whenever the timestamps observed by the parser are
non-decreasing (which a well-behaved transcoder produces); but on a later
line with a lower timestamp the loop emits the lower value as-is — there is
no clamping to the last emitted value. -/
theorem C4_progress_monotone_iff_timestamps (D : ℚ) (cb : Bool)
    (lines : List (Option Timestamp))
    (h : List.Chain' (· ≤ ·) (parsedTimes lines)) :
    List.Chain' (· ≤ ·) (progressEmissions D cb lines) := by
  rw [progressEmissions_eq]
  split_ifs with hD
  · rw [List.chain'_map]
    refine h.imp ?_
    intro a b hab
    refine min_le_min le_rfl ?_
    have hD0 : 0 < D := hD.1
    have : a / D ≤ b / D := (div_le_div_iff_of_pos_right hD0).mpr hab
    linarith
  · exact List.chain'_nil

/-- Witness for the amended C4: timestamps 5 s then 10 s over a 20-second
source give the monotone emission sequence 25, 50. -/
theorem C4_progress_monotone_iff_timestamps_witness :
    List.Chain' (· ≤ ·) (progressEmissions 20 true [some ⟨0, 0, 5⟩, some ⟨0, 0, 10⟩]) :=
  C4_progress_monotone_iff_timestamps 20 true [some ⟨0, 0, 5⟩, some ⟨0, 0, 10⟩]
    (by simp [parsedTimes, Timestamp.seconds, List.chain'_cons]; norm_num)

end AudioDetectorPro


